import Mathlib

/-!
# Verification of the SOCKS5 handshake and relay engine in `tor.py`

Shallow embedding of the SOCKS5 proxy in `src/tor.py`:

* `Socks5.run` (lines 121-159): the handshake state machine, embedded as
  `Socks5.run` below over an explicit client byte stream.
* `Socks5.error` (lines 106-112): the failure-reply helper, embedded as
  `Socks5.errorMethod` with an explicit flag for a `send` that raises.
* `SocksProxy.run` (lines 42-66): the bidirectional relay, embedded as
  `SocksProxy.proxyRun` over an explicit select/recv schedule.

The client is modelled by the finite list of bytes it sends before closing
its write side; bytes are `Nat` values (0..255 on the real wire).  Sends to
the client are collected in order in a `sent` list.  Exception control flow
is made explicit: each outcome records whether the client socket was closed,
whether the `client_sock` field was cleared, whether the circuit collaborator
was asked for a stream (and for which destination), whether the relay was
started, and whether the process exited (the fatal broken-pipe path).
-/

namespace Socks5

/-- Modelled from the spec: `torpy.utils.recv_exact` is imported, not part of
this repository's sources.  Per spec §4.1, "All reads must block until the
exact requested byte count is available or the connection closes early (short
read ⇒ `ConnectionClosedEarly` failure)": it returns exactly `n` bytes, or a
falsy result once the peer closes early, having consumed whatever bytes were
still available.  The pair is (result, remaining input). -/
def recvExact (n : Nat) (input : List Nat) : Option (List Nat) × List Nat :=
  if n ≤ input.length then (some (input.take n), input.drop n)
  else (none, [])

/-- `".".join(str(i) for i in bs)` at line 139 of `tor.py`:
dotted-decimal rendering of raw IPv4 bytes. -/
def ipv4Dotted (bs : List Nat) : String :=
  String.intercalate "." (bs.map (fun i => toString i))

/-- Decode one UTF-8 code point starting with lead byte `b`, continuation
bytes taken from `rest`: strict semantics of Python's `bytes.decode()` at
line 142 of `tor.py` — rejects stray continuation bytes, overlong encodings,
surrogates and code points above `0x10FFFF`.  Returns the code point and the
unconsumed bytes, or `none` for a `UnicodeDecodeError`. -/
def utf8Step (b : Nat) (rest : List Nat) : Option (Nat × List Nat) :=
  if b < 0x80 then
    some (b, rest)
  else if b < 0xC2 then
    none
  else if b < 0xE0 then
    match rest with
    | b1 :: rest2 =>
      if 0x80 ≤ b1 ∧ b1 < 0xC0 then
        some ((b - 0xC0) * 0x40 + (b1 - 0x80), rest2)
      else none
    | [] => none
  else if b < 0xF0 then
    match rest with
    | b1 :: b2 :: rest2 =>
      if (0x80 ≤ b1 ∧ b1 < 0xC0) ∧ (0x80 ≤ b2 ∧ b2 < 0xC0)
          ∧ (b = 0xE0 → 0xA0 ≤ b1) ∧ (b = 0xED → b1 < 0xA0) then
        some ((b - 0xE0) * 0x1000 + (b1 - 0x80) * 0x40 + (b2 - 0x80), rest2)
      else none
    | _ => none
  else if b < 0xF5 then
    match rest with
    | b1 :: b2 :: b3 :: rest2 =>
      if (0x80 ≤ b1 ∧ b1 < 0xC0) ∧ (0x80 ≤ b2 ∧ b2 < 0xC0) ∧ (0x80 ≤ b3 ∧ b3 < 0xC0)
          ∧ (b = 0xF0 → 0x90 ≤ b1) ∧ (b = 0xF4 → b1 < 0x90) then
        some ((b - 0xF0) * 0x40000 + (b1 - 0x80) * 0x1000
          + (b2 - 0x80) * 0x40 + (b3 - 0x80), rest2)
      else none
    | _ => none
  else none

/-- Iterate `utf8Step` over the whole byte list.  `fuel` only drives the
recursion; any `fuel ≥ length` gives the natural recursion on the list,
since each step consumes at least the lead byte. -/
def utf8DecodeGo : Nat → List Nat → Option (List Nat)
  | _, [] => some []
  | 0, _ :: _ => none
  | fuel + 1, b :: rest =>
    match utf8Step b rest with
    | some (cp, rest2) => (utf8DecodeGo fuel rest2).map (fun cs => cp :: cs)
    | none => none

/-- Strict UTF-8 decoding of a byte list to its list of code points;
`none` corresponds to `UnicodeDecodeError`. -/
def utf8DecodeAux (l : List Nat) : Option (List Nat) :=
  utf8DecodeGo l.length l

/-- `bytes.decode()`: decode a byte list to a `String`, or `none` on
`UnicodeDecodeError`. -/
def utf8Decode (l : List Nat) : Option String :=
  (utf8DecodeAux l).map (fun cs => String.mk (cs.map Char.ofNat))

/-- Result of the address-type dispatch at lines 138-147 of `tor.py`. -/
inductive AddrRes
  /-- a destination host string was parsed -/
  | okDest (dest : String)
  /-- `return self.error()` (unsupported address type, or the IPv6 branch) -/
  | failReply
  /-- an exception escapes to the outer handler at line 156 -/
  | failExn
deriving Repr, DecidableEq

/-- The IPv6 branch, line 144: `":".join(recv_exact(csock, 2).hex() for _ in
range(8))` reads eight 2-byte groups and then line 145 unconditionally
returns `self.error()`; a short read raises (`None.hex()`). -/
def ipv6Consume : Nat → List Nat → AddrRes × List Nat
  | 0, input => (.failReply, input)
  | k + 1, input =>
    match recvExact 2 input with
    | (some _, rest) => ipv6Consume k rest
    | (none, rest) => (.failExn, rest)

/-- Address-type dispatch, lines 138-147 of `tor.py`:
* `atyp = 1`: read 4 bytes, dotted-decimal (a short read makes `recv_exact`
  falsy and iterating it raises);
* `atyp = 3`: read 1 length byte (`array` unpack raises on empty), read that
  many bytes, UTF-8 decode (decode of a falsy short read, or an invalid byte
  sequence, raises);
* `atyp = 4`: consume 16 bytes then `return self.error()`;
* anything else: `return self.error()`.
Returns the parse result and the remaining client input. -/
def parseAddr (atyp : Nat) (input : List Nat) : AddrRes × List Nat :=
  if atyp = 1 then
    match recvExact 4 input with
    | (some bs, rest) => (.okDest (ipv4Dotted bs), rest)
    | (none, rest) => (.failExn, rest)
  else if atyp = 3 then
    match input with
    | [] => (.failExn, [])
    | n :: tail =>
      match recvExact n tail with
      | (some bs, rest) =>
        match utf8Decode bs with
        | some s => (.okDest s, rest)
        | none => (.failExn, rest)
      | (none, rest) => (.failExn, rest)
  else if atyp = 4 then
    ipv6Consume 8 input
  else
    (.failReply, input)

/-- Outcome of `Circuit.create_stream` for one request, the external
collaborator at line 117 of `tor.py`. -/
inductive StreamRes
  /-- the stream is built and the relay can start -/
  | ok
  /-- an ordinary exception propagates to the handler at line 156 -/
  | raiseExn
  /-- `BrokenPipeError`, caught at line 153 -/
  | raiseBrokenPipe
deriving Repr, DecidableEq

/-- Observable outcome of one `Socks5.run` execution. -/
structure RunOutcome where
  /-- bytes sent to the client, in order -/
  sent : List Nat
  /-- client input bytes never read -/
  remaining : List Nat
  /-- was `client_sock.close()` called (by `error` or the line 158 handler) -/
  clientClosed : Bool
  /-- was the `client_sock` field set to `None` -/
  fieldCleared : Bool
  /-- destination passed to `Circuit.create_stream`, when it was called -/
  streamRequested : Option (String × Nat)
  /-- did control reach `SocksProxy(ssock, csock).run()` (line 152) -/
  relayStarted : Bool
  /-- did the process `exit()` (line 155, broken-pipe path) -/
  processExited : Bool
deriving Repr, DecidableEq

/-- `Socks5.error` at lines 106-112 as it behaves when `send` succeeds:
send `b"\x05" + err`, close the socket, clear the field (`errBytes` below is
the full frame including the `\x05`).  The fallible-`send` variant is
modelled separately by `errorMethod`. -/
def closedOut (errSent rem : List Nat) : RunOutcome :=
  ⟨errSent, rem, true, true, none, false, false⟩

/-- Lines 130-155 of `tor.py`: everything after the greeting reply.  `sent`
in the result counts only bytes sent after the `\x05\x00` greeting reply.
* read 4 header bytes (`if not hbuf: return self.error()` on a short read,
  which has consumed the leftovers);
* the guard `if ver != 5 and cmd != 1` (the weak conjunction exactly as in
  the source, line 135);
* address dispatch via `parseAddr`;
* read 2 port bytes, big-endian (`int(recv_exact(csock, 2).hex(), 16)`; a
  short read raises on `None.hex()`);
* call `Circuit.create_stream`: on success the relay starts; on
  `BrokenPipeError` the process exits; on any other exception the outer
  handler at lines 156-159 closes the socket without sending anything. -/
def runRequest (circuit : String → Nat → StreamRes) (input : List Nat) : RunOutcome :=
  match input with
  | v2 :: cmd :: _rsv :: atyp :: rest =>
    if v2 ≠ 5 ∧ cmd ≠ 1 then closedOut [5, 1, 0] rest
    else
      match parseAddr atyp rest with
      | (.failReply, rem) => closedOut [5, 1, 0] rem
      | (.failExn, rem) => closedOut [] rem
      | (.okDest dest, rest2) =>
        match rest2 with
        | p1 :: p2 :: rest3 =>
          let port := p1 * 256 + p2
          match circuit dest port with
          | .raiseBrokenPipe => ⟨[], rest3, false, false, some (dest, port), false, true⟩
          | .raiseExn => ⟨[], rest3, true, true, some (dest, port), false, false⟩
          | .ok => ⟨[], rest3, false, false, some (dest, port), true, false⟩
        | _ => closedOut [] []
  | _ => closedOut [5, 1, 0] []

/-- Prepend earlier-sent bytes to an outcome (the greeting reply precedes
every request-phase send). -/
def prependSent (bs : List Nat) (o : RunOutcome) : RunOutcome :=
  { o with sent := bs ++ o.sent }

/-- `Socks5.run` at lines 121-159 of `tor.py`, over the client byte stream:
* read 1 version byte; anything but `\x05` (including an immediate close,
  which makes `recv` return `b""`) triggers `self.error(b"\xff")`, i.e. the
  two bytes `\x05\xff`, close, clear;
* read 1 method-count byte (the `array` unpack raises on an empty read and
  the outer handler closes without a reply);
* read exactly that many method bytes, discarding them (line 128: the result
  of `recv_exact` is assigned to `_`, so even a short read is ignored);
* send the greeting reply `\x05\x00`;
* continue with `runRequest`. -/
def run (circuit : String → Nat → StreamRes) (input : List Nat) : RunOutcome :=
  match input with
  | [] => closedOut [5, 0xFF] []
  | v :: rest =>
    if v = 5 then
      match rest with
      | [] => closedOut [] []
      | n :: rest2 => prependSent [5, 0] (runRequest circuit (rest2.drop n))
    else
      closedOut [5, 0xFF] rest

/-- A circuit collaborator whose `create_stream` always succeeds. -/
def circuitOk : String → Nat → StreamRes := fun _ _ => .ok

/-- A circuit collaborator whose `create_stream` always raises an ordinary
(non-broken-pipe) exception. -/
def circuitRaises : String → Nat → StreamRes := fun _ _ => .raiseExn

/-- Observable outcome of one `Socks5.error` call (lines 106-112). -/
structure ErrorOutcome where
  /-- bytes actually delivered to the client -/
  sentBytes : List Nat
  /-- was `client_sock.close()` executed -/
  sockClosed : Bool
  /-- was the `client_sock` field set to `None` -/
  fieldCleared : Bool
  /-- did an exception escape the method -/
  exnEscaped : Bool
deriving Repr, DecidableEq

/-- `Socks5.error` at lines 106-112 of `tor.py`, with the possibility that
`self.client_sock.send` raises (for example because the client already
disconnected) made explicit: the whole body is wrapped in
`try: ... except BaseException: pass`, so when `send` raises, the `close()`
and the `self.client_sock = None` that follow it are skipped and the
exception is swallowed. -/
def errorMethod (err : List Nat) (sendRaises : Bool) : ErrorOutcome :=
  if sendRaises then ⟨[], false, false, false⟩
  else ⟨5 :: err, true, true, false⟩

end Socks5

namespace SocksProxy

/-- The two endpoints of one relay pair: `ssock` (the tunnel-side stream
socket) and `csock` (the accepted client socket). -/
inductive Side
  /-- the tunnel-side endpoint (`ssock`) -/
  | tunnel
  /-- the client-side endpoint (`csock`) -/
  | client
deriving Repr, DecidableEq

/-- What one `recv(4096)` call on a readable endpoint produces, together
with the fate of the forwarding `send`:
* `chunk data sendOk`: `recv` returned `data` (an empty `data` is the
  zero-length read that means the peer closed its write side; when `data` is
  nonempty, `sendOk = false` means the forwarding `send` to the opposite
  endpoint raised);
* `raiseExn`: `recv` itself raised. -/
inductive RecvRes
  /-- `recv` returned these bytes; `sendOk` records whether forwarding them
  with `send` succeeded -/
  | chunk (data : List Nat) (sendOk : Bool)
  /-- `recv` raised an exception -/
  | raiseExn
deriving Repr, DecidableEq

/-- One wake-up of `select.select([ssock, csock], [], [])` at line 49 of
`tor.py`: which endpoints are readable, and what reading each delivers.
`none` means the endpoint was not in the ready set. -/
structure IterEv where
  /-- readiness and recv result for `ssock` (tunnel side) -/
  tun : Option RecvRes
  /-- readiness and recv result for `csock` (client side) -/
  cli : Option RecvRes
deriving Repr, DecidableEq

/-- Observable outcome of one `SocksProxy.run` execution that terminated. -/
structure RelayResult where
  /-- bytes written to the client socket, the initial success reply first -/
  clientOut : List Nat
  /-- bytes written to the tunnel socket -/
  tunnelOut : List Nat
  /-- `close()` calls, in order -/
  closes : List Side
deriving Repr, DecidableEq

/-- The `while True` loop at lines 48-59 of `tor.py`, driven by a schedule
of select wake-ups.  Within one iteration the tunnel side is handled first
(lines 50-54) and, if it neither broke nor raised, the client side (lines
55-59).  The loop exits on a zero-length read (`break`) or on any exception
(`recv` or the forwarding `send` raising); bytes whose `send` raised are not
delivered.  Returns the accumulated outputs at loop exit, or `none` when the
schedule is exhausted with the loop still blocked in `select`. -/
def relayLoop : List IterEv → List Nat → List Nat → Option (List Nat × List Nat)
  | [], _, _ => none
  | e :: rest, cOut, tOut =>
    match e.tun with
    | some .raiseExn => some (cOut, tOut)
    | some (.chunk d ok) =>
      if d = [] ∨ ok = false then some (cOut, tOut)
      else
        match e.cli with
        | some .raiseExn => some (cOut ++ d, tOut)
        | some (.chunk d2 ok2) =>
          if d2 = [] ∨ ok2 = false then some (cOut ++ d, tOut)
          else relayLoop rest (cOut ++ d) (tOut ++ d2)
        | none => relayLoop rest (cOut ++ d) tOut
    | none =>
      match e.cli with
      | some .raiseExn => some (cOut, tOut)
      | some (.chunk d2 ok2) =>
        if d2 = [] ∨ ok2 = false then some (cOut, tOut)
        else relayLoop rest cOut (tOut ++ d2)
      | none => relayLoop rest cOut tOut

/-- The `finally` block at lines 62-66 of `tor.py`: close the tunnel-side
socket, then the client-side socket. -/
def relayCleanup (closes : List Side) : List Side :=
  closes ++ [Side.tunnel, Side.client]

/-- `struct.pack("!H", port)` at line 46 of `tor.py`: two big-endian bytes,
or an exception (`struct.error`) for a value outside 16 bits. -/
def pack16 (port : Nat) : Option (List Nat) :=
  if port < 65536 then some [port / 256, port % 256] else none

/-- `SocksProxy.run` at lines 42-66 of `tor.py`: send the synthetic success
reply `b"\x05\0\0\x01\x7f\0\0\x01" + struct.pack("!H", port)` where `port`
comes from `csock.getsockname()`, then run the relay loop; whenever the
loop exits — zero-length read or exception — the `finally` block closes the
tunnel endpoint and then the client endpoint.  `none` means the execution
did not terminate within the schedule (or `struct.pack` raised before the
`try`, in which case no cleanup runs either). -/
def proxyRun (port : Nat) (sched : List IterEv) : Option RelayResult :=
  match pack16 port with
  | none => none
  | some portBytes =>
    let reply := [5, 0, 0, 1, 0x7F, 0, 0, 1] ++ portBytes
    match relayLoop sched reply [] with
    | none => none
    | some (cOut, tOut) => some ⟨cOut, tOut, relayCleanup []⟩

end SocksProxy

/-! ## Helper lemmas -/

namespace Socks5

theorem recvExact_exact (l r : List Nat) : recvExact l.length (l ++ r) = (some l, r) := by
  have hle : l.length ≤ (l ++ r).length := by
    rw [List.length_append]; exact Nat.le_add_right _ _
  unfold recvExact
  rw [if_pos hle, List.take_left, List.drop_left]

theorem recvExact_of_length_eq {n : Nat} {l : List Nat} (r : List Nat) (h : l.length = n) :
    recvExact n (l ++ r) = (some l, r) := by
  subst h; exact recvExact_exact l r

/-- An ASCII lead byte is a complete code point by itself. -/
theorem utf8Step_ascii (b : Nat) (rest : List Nat) (hb : b < 0x80) :
    utf8Step b rest = some (b, rest) := by
  simp only [utf8Step]
  rw [if_pos hb]

/-- ASCII bytes decode to themselves as code points, for any large-enough
fuel. -/
theorem utf8DecodeGo_ascii (fuel : Nat) (l : List Nat) (h : ∀ b ∈ l, b < 0x80)
    (hf : l.length ≤ fuel) : utf8DecodeGo fuel l = some l := by
  induction fuel generalizing l with
  | zero =>
    cases l with
    | nil => rfl
    | cons b rest => simp at hf
  | succ fuel ih =>
    cases l with
    | nil => rfl
    | cons b rest =>
      have hb : b < 0x80 := h b (List.mem_cons_self b rest)
      have hrest : utf8DecodeGo fuel rest = some rest :=
        ih rest (fun x hx => h x (List.mem_cons_of_mem b hx)) (by simp at hf; omega)
      simp only [utf8DecodeGo, utf8Step_ascii b rest hb, hrest]
      rfl

/-- ASCII bytes decode to themselves as code points. -/
theorem utf8DecodeAux_ascii (l : List Nat) (h : ∀ b ∈ l, b < 0x80) :
    utf8DecodeAux l = some l :=
  utf8DecodeGo_ascii l.length l h (Nat.le_refl _)

/-- ASCII bytes decode to the string made of the corresponding characters. -/
theorem utf8Decode_ascii (l : List Nat) (h : ∀ b ∈ l, b < 0x80) :
    utf8Decode l = some (String.mk (l.map Char.ofNat)) := by
  simp [utf8Decode, utf8DecodeAux_ascii l h]

/-- The IPv6 branch consumes two bytes per group and then fails with
`self.error()`. -/
theorem ipv6Consume_consumes (k : Nat) (addr rest : List Nat) (h : addr.length = 2 * k) :
    ipv6Consume k (addr ++ rest) = (.failReply, rest) := by
  induction k generalizing addr with
  | zero =>
    have : addr = [] := List.eq_nil_of_length_eq_zero (by omega)
    subst this; rfl
  | succ k ih =>
    match addr, h with
    | a :: b :: addr2, h =>
      have h2 : ([a, b] : List Nat).length = 2 := rfl
      have : (a :: b :: addr2) ++ rest = [a, b] ++ (addr2 ++ rest) := by simp
      rw [ipv6Consume, this, recvExact_of_length_eq (addr2 ++ rest) h2]
      exact ih addr2 (by simp at h; omega)

/-- After a correct greeting, `Socks5.run` is the request phase prefixed by
the `\x05\x00` greeting reply: the `n` declared method bytes are consumed
and discarded whatever their content. -/
theorem run_after_greeting (circuit : String → Nat → StreamRes) (n : Nat)
    (meths rest : List Nat) (h : meths.length = n) :
    run circuit (5 :: n :: (meths ++ rest)) = prependSent [5, 0] (runRequest circuit rest) := by
  subst h
  simp [run, List.drop_left]

/-- If the request phase called `create_stream` for some destination and the
circuit raised an ordinary exception there, then the outer handler at lines
156-159 closed the socket and cleared the field without sending anything
further, and the relay never started. -/
theorem runRequest_raiseExn (circuit : String → Nat → StreamRes) (input : List Nat)
    (dest : String) (port : Nat) :
    (runRequest circuit input).streamRequested = some (dest, port) →
    circuit dest port = .raiseExn →
    (runRequest circuit input).sent = [] ∧
    (runRequest circuit input).clientClosed = true ∧
    (runRequest circuit input).fieldCleared = true ∧
    (runRequest circuit input).relayStarted = false := by
  unfold runRequest
  split
  next v2 cmd rsv atyp rest =>
    split
    · intro hreq
      exact absurd hreq (by simp [closedOut])
    · rcases hpa : parseAddr atyp rest with ⟨ares, rem⟩
      cases ares with
      | failReply =>
        intro hreq
        exact absurd hreq (by simp [closedOut])
      | failExn =>
        intro hreq
        exact absurd hreq (by simp [closedOut])
      | okDest d =>
        cases rem with
        | nil =>
          intro hreq
          exact absurd hreq (by simp [closedOut])
        | cons p1 rem2 =>
          cases rem2 with
          | nil =>
            intro hreq
            exact absurd hreq (by simp [closedOut])
          | cons p2 rest3 =>
            dsimp only
            rcases hc : circuit d (p1 * 256 + p2) with _ | _ | _
            all_goals dsimp only
            all_goals intro hreq hexn
            · simp only [Option.some.injEq, Prod.mk.injEq] at hreq
              rw [hreq.1, hreq.2] at hc
              rw [hc] at hexn
              exact absurd hexn (by simp)
            · exact ⟨rfl, rfl, rfl, rfl⟩
            · simp only [Option.some.injEq, Prod.mk.injEq] at hreq
              rw [hreq.1, hreq.2] at hc
              rw [hc] at hexn
              exact absurd hexn (by simp)
  next =>
    intro hreq
    exact absurd hreq (by simp [closedOut])

end Socks5

namespace SocksProxy

/-- The relay loop only appends to the client-side output, so everything
sent before the loop — in particular the success reply — stays at the front
of `clientOut`. -/
theorem relayLoop_front (sched : List IterEv) (c t c' t' : List Nat)
    (h : relayLoop sched c t = some (c', t')) : ∃ d, c' = c ++ d := by
  induction sched generalizing c t with
  | nil => exact Option.noConfusion h
  | cons e rest ih =>
    obtain ⟨tun, cli⟩ := e
    cases tun with
    | some cr =>
      cases cr with
      | raiseExn =>
        simp only [relayLoop, Option.some.injEq, Prod.mk.injEq] at h
        exact ⟨[], by rw [← h.1]; simp⟩
      | chunk d ok =>
        cases cli with
        | none =>
          simp only [relayLoop] at h
          split at h
          · simp only [Option.some.injEq, Prod.mk.injEq] at h
            exact ⟨[], by rw [← h.1]; simp⟩
          · obtain ⟨d2, hd2⟩ := ih _ _ h
            exact ⟨d ++ d2, by rw [hd2, List.append_assoc]⟩
        | some cr2 =>
          cases cr2 with
          | raiseExn =>
            simp only [relayLoop] at h
            split at h
            · simp only [Option.some.injEq, Prod.mk.injEq] at h
              exact ⟨[], by rw [← h.1]; simp⟩
            · simp only [Option.some.injEq, Prod.mk.injEq] at h
              exact ⟨d, h.1.symm⟩
          | chunk d2 ok2 =>
            simp only [relayLoop] at h
            split at h
            · simp only [Option.some.injEq, Prod.mk.injEq] at h
              exact ⟨[], by rw [← h.1]; simp⟩
            · split at h
              · simp only [Option.some.injEq, Prod.mk.injEq] at h
                exact ⟨d, h.1.symm⟩
              · obtain ⟨d3, hd3⟩ := ih _ _ h
                exact ⟨d ++ d3, by rw [hd3, List.append_assoc]⟩
    | none =>
      cases cli with
      | none =>
        simp only [relayLoop] at h
        exact ih _ _ h
      | some cr2 =>
        cases cr2 with
        | raiseExn =>
          simp only [relayLoop, Option.some.injEq, Prod.mk.injEq] at h
          exact ⟨[], by rw [← h.1]; simp⟩
        | chunk d2 ok2 =>
          simp only [relayLoop] at h
          split at h
          · simp only [Option.some.injEq, Prod.mk.injEq] at h
            exact ⟨[], by rw [← h.1]; simp⟩
          · obtain ⟨d3, hd3⟩ := ih _ _ h
            exact ⟨d3, hd3⟩

end SocksProxy

/-! ## Claim theorems -/

/-- C1: the spec requires that version 5 combined with any command byte other
than 1 be rejected, but the guard at line 135 is `ver != 5 and cmd != 1`, so
a request with version 5 and command 2 (BIND) is accepted: no failure reply
is sent, the address is parsed, `create_stream` is called and the relay
starts. -/
theorem connect_guard_accepts_command_two :
    Socks5.run Socks5.circuitOk [5, 0, 5, 2, 0, 1, 127, 0, 0, 1, 0, 80] =
      ⟨[5, 0], [], false, false, some ("127.0.0.1", 80), true, false⟩ := by
  decide

/-- C2 counterexample: when `create_stream` raises an ordinary exception the
handler does NOT send the default failure reply `\x05\x01\x00`: it closes
the client socket with only the greeting reply `\x05\x00` ever sent, so the
socket is closed without a (failure) reply, contradicting the claim. -/
theorem create_stream_exn_silent_close_cex :
    (Socks5.run Socks5.circuitRaises [5, 0, 5, 1, 0, 1, 127, 0, 0, 1, 0, 80]).clientClosed
        = true ∧
    (Socks5.run Socks5.circuitRaises [5, 0, 5, 1, 0, 1, 127, 0, 0, 1, 0, 80]).sent = [5, 0] ∧
    ¬ [5, 1, 0] <:+: (Socks5.run Socks5.circuitRaises
        [5, 0, 5, 1, 0, 1, 127, 0, 0, 1, 0, 80]).sent := by
  decide

/-- C2 (amended): for every execution in which the circuit collaborator's
`create_stream` raises a non-broken-pipe exception, the connection handler
closes the client socket and clears the field WITHOUT sending any failure
reply (the only bytes ever sent are the greeting reply `\x05\x00`), and the
relay never starts. -/
theorem create_stream_exn_closes_without_reply (circuit : String → Nat → Socks5.StreamRes)
    (input : List Nat) (dest : String) (port : Nat)
    (hreq : (Socks5.run circuit input).streamRequested = some (dest, port))
    (hexn : circuit dest port = .raiseExn) :
    (Socks5.run circuit input).clientClosed = true ∧
    (Socks5.run circuit input).fieldCleared = true ∧
    (Socks5.run circuit input).sent = [5, 0] ∧
    (Socks5.run circuit input).relayStarted = false := by
  rcases input with _ | ⟨v, rest⟩
  · simp [Socks5.run, Socks5.closedOut] at hreq
  · by_cases hv : v = 5
    · subst hv
      rcases rest with _ | ⟨n, rest2⟩
      · simp [Socks5.run, Socks5.closedOut] at hreq
      · have hrun : Socks5.run circuit (5 :: n :: rest2) =
            Socks5.prependSent [5, 0] (Socks5.runRequest circuit (rest2.drop n)) := by
          simp [Socks5.run]
        rw [hrun] at hreq ⊢
        obtain ⟨h1, h2, h3, h4⟩ := Socks5.runRequest_raiseExn circuit (rest2.drop n) dest port
          (by simpa [Socks5.prependSent] using hreq) hexn
        simp [Socks5.prependSent, h1, h2, h3, h4]
    · have hrun : Socks5.run circuit (v :: rest) = Socks5.closedOut [5, 0xFF] rest := by
        simp only [Socks5.run]
        rw [if_neg hv]
      rw [hrun] at hreq
      simp [Socks5.closedOut] at hreq

/-- C2 witness: a concrete execution reaching `create_stream` with a circuit
that raises. -/
theorem create_stream_exn_closes_without_reply_witness :
    (Socks5.run Socks5.circuitRaises [5, 0, 5, 1, 0, 1, 127, 0, 0, 1, 0, 80]).clientClosed
        = true ∧
    (Socks5.run Socks5.circuitRaises [5, 0, 5, 1, 0, 1, 127, 0, 0, 1, 0, 80]).fieldCleared
        = true ∧
    (Socks5.run Socks5.circuitRaises [5, 0, 5, 1, 0, 1, 127, 0, 0, 1, 0, 80]).sent = [5, 0] ∧
    (Socks5.run Socks5.circuitRaises [5, 0, 5, 1, 0, 1, 127, 0, 0, 1, 0, 80]).relayStarted
        = false :=
  create_stream_exn_closes_without_reply Socks5.circuitRaises
    [5, 0, 5, 1, 0, 1, 127, 0, 0, 1, 0, 80] "127.0.0.1" 80 (by decide) rfl

/-- C4 counterexample: on a first byte other than `\x05` (here `\x04`) the
server sends the TWO bytes `\x05\xff` — `self.error(b"\xff")` sends
`b"\x05" + err` — not the bare single byte `\xff` the claim states. -/
theorem bad_version_reply_not_bare_ff_cex :
    (Socks5.run Socks5.circuitOk [4]).sent = [5, 0xFF] ∧
    (Socks5.run Socks5.circuitOk [4]).sent ≠ [0xFF] := by
  decide

/-- C4 (amended): for every connection whose first byte is any value other
than `\x05`, the server sends exactly the two bytes `\x05\xff` (and nothing
else), closes the client connection, and never proceeds: no stream request,
no relay. -/
theorem bad_version_sends_ff_frame_and_closes (circuit : String → Nat → Socks5.StreamRes)
    (b : Nat) (rest : List Nat) (hb : b ≠ 5) :
    Socks5.run circuit (b :: rest) = ⟨[5, 0xFF], rest, true, true, none, false, false⟩ := by
  simp only [Socks5.run]
  rw [if_neg hb]
  rfl

/-- C4 witness: concrete first byte 4. -/
theorem bad_version_sends_ff_frame_and_closes_witness :
    Socks5.run Socks5.circuitOk [4, 9, 9] =
      ⟨[5, 0xFF], [9, 9], true, true, none, false, false⟩ :=
  bad_version_sends_ff_frame_and_closes Socks5.circuitOk 4 [9, 9] (by decide)

/-- C5: whenever the relay loop exits — zero-length read on either endpoint,
or any exception from `recv` or `send` — the `finally` cleanup runs and
closes the tunnel-side endpoint first and then the client-side endpoint,
each exactly once. -/
theorem relay_cleanup_closes_each_endpoint_once (port : Nat)
    (sched : List SocksProxy.IterEv) (res : SocksProxy.RelayResult)
    (h : SocksProxy.proxyRun port sched = some res) :
    res.closes = [SocksProxy.Side.tunnel, SocksProxy.Side.client] ∧
    res.closes.count SocksProxy.Side.tunnel = 1 ∧
    res.closes.count SocksProxy.Side.client = 1 := by
  unfold SocksProxy.proxyRun at h
  rcases hp : SocksProxy.pack16 port with _ | portBytes
  · rw [hp] at h
    exact Option.noConfusion h
  · rw [hp] at h
    dsimp only at h
    rcases hrl : SocksProxy.relayLoop sched ([5, 0, 0, 1, 0x7F, 0, 0, 1] ++ portBytes) []
      with _ | ⟨c, t⟩
    · rw [hrl] at h
      exact Option.noConfusion h
    · rw [hrl] at h
      simp only [Option.some.injEq] at h
      subst h
      exact ⟨rfl, rfl, rfl⟩

/-- C5 witness: a schedule on which the tunnel endpoint immediately reports
EOF. -/
theorem relay_cleanup_closes_each_endpoint_once_witness :
    (SocksProxy.RelayResult.mk [5, 0, 0, 1, 127, 0, 0, 1, 4, 26] []
        [SocksProxy.Side.tunnel, SocksProxy.Side.client]).closes
      = [SocksProxy.Side.tunnel, SocksProxy.Side.client] ∧
    (SocksProxy.RelayResult.mk [5, 0, 0, 1, 127, 0, 0, 1, 4, 26] []
        [SocksProxy.Side.tunnel, SocksProxy.Side.client]).closes.count SocksProxy.Side.tunnel
      = 1 ∧
    (SocksProxy.RelayResult.mk [5, 0, 0, 1, 127, 0, 0, 1, 4, 26] []
        [SocksProxy.Side.tunnel, SocksProxy.Side.client]).closes.count SocksProxy.Side.client
      = 1 :=
  relay_cleanup_closes_each_endpoint_once 1050 [⟨some (.chunk [] true), none⟩]
    (SocksProxy.RelayResult.mk [5, 0, 0, 1, 127, 0, 0, 1, 4, 26] []
      [SocksProxy.Side.tunnel, SocksProxy.Side.client]) (by decide)

/-- C10: `Socks5.error` never lets an exception escape, but it is not
atomic: when the `send` of the failure reply raises, the `close()` and the
clearing of `client_sock` that follow it inside the same `try` are skipped,
so the socket is neither closed nor marked closed by the error path. -/
theorem error_swallows_and_send_failure_skips_close (err : List Nat) (sendRaises : Bool) :
    (Socks5.errorMethod err sendRaises).exnEscaped = false ∧
    (sendRaises = true →
      (Socks5.errorMethod err sendRaises).sockClosed = false ∧
      (Socks5.errorMethod err sendRaises).fieldCleared = false) := by
  cases sendRaises <;> simp [Socks5.errorMethod]

/-- C10 witness: the default error frame with a raising `send`. -/
theorem error_swallows_and_send_failure_skips_close_witness :
    (Socks5.errorMethod [1, 0] true).exnEscaped = false ∧
    (Socks5.errorMethod [1, 0] true).sockClosed = false ∧
    (Socks5.errorMethod [1, 0] true).fieldCleared = false :=
  ⟨(error_swallows_and_send_failure_skips_close [1, 0] true).1,
   (error_swallows_and_send_failure_skips_close [1, 0] true).2 rfl⟩

/-- C3 counterexample: line 46 sends `b"\x05\0\0\x01\x7f\0\0\x01"` + port —
the four address bytes are `127.0.0.1`, not the four zero bytes the claim
states.  With local port 1050 the reply is `05 00 00 01 7f 00 00 01 04 1a`,
which differs from the claimed `05 00 00 01 00 00 00 00 04 1a`. -/
theorem success_reply_loopback_not_zero_cex :
    (SocksProxy.proxyRun 1050 [⟨some (.chunk [] true), none⟩]).map
        SocksProxy.RelayResult.clientOut = some [5, 0, 0, 1, 127, 0, 0, 1, 4, 26] ∧
    some [5, 0, 0, 1, 127, 0, 0, 1, 4, 26] ≠
      some ([5, 0, 0, 1] ++ [0, 0, 0, 0] ++ [4, 26] : List Nat) := by
  decide

/-- C3 (amended): for every terminating relay execution, the reply sent to
the client is exactly the 10 bytes `\x05\x00\x00\x01` followed by the four
loopback bytes `\x7f\x00\x00\x01` (127.0.0.1) followed by the 2-byte
big-endian rendering of the port obtained from `getsockname()` on the
client connection. -/
theorem success_reply_bytes (port : Nat) (sched : List SocksProxy.IterEv)
    (res : SocksProxy.RelayResult) (h : SocksProxy.proxyRun port sched = some res) :
    res.clientOut.take 10 = [5, 0, 0, 1, 127, 0, 0, 1, port / 256, port % 256] := by
  unfold SocksProxy.proxyRun at h
  rcases hp : SocksProxy.pack16 port with _ | portBytes
  · rw [hp] at h
    exact Option.noConfusion h
  · rw [hp] at h
    dsimp only at h
    have hlt : port < 65536 := by
      by_contra hge
      unfold SocksProxy.pack16 at hp
      rw [if_neg hge] at hp
      exact Option.noConfusion hp
    have hpb : portBytes = [port / 256, port % 256] := by
      unfold SocksProxy.pack16 at hp
      rw [if_pos hlt] at hp
      exact (Option.some.inj hp).symm
    subst hpb
    rcases hrl : SocksProxy.relayLoop sched
        ([5, 0, 0, 1, 0x7F, 0, 0, 1] ++ [port / 256, port % 256]) [] with _ | ⟨c, t⟩
    · rw [hrl] at h
      exact Option.noConfusion h
    · rw [hrl] at h
      simp only [Option.some.injEq] at h
      subst h
      obtain ⟨d, hd⟩ := SocksProxy.relayLoop_front sched _ [] c t hrl
      show c.take 10 = _
      rw [hd]
      rfl

/-- C3 witness: local port 1050, client closes immediately. -/
theorem success_reply_bytes_witness :
    (SocksProxy.RelayResult.mk [5, 0, 0, 1, 127, 0, 0, 1, 4, 26] []
        [SocksProxy.Side.tunnel, SocksProxy.Side.client]).clientOut.take 10 =
      [5, 0, 0, 1, 127, 0, 0, 1, 1050 / 256, 1050 % 256] :=
  success_reply_bytes 1050 [⟨none, some (.chunk [] true)⟩]
    (SocksProxy.RelayResult.mk [5, 0, 0, 1, 127, 0, 0, 1, 4, 26] []
      [SocksProxy.Side.tunnel, SocksProxy.Side.client]) (by decide)

/-- C6: a connect-request with address-type 4 (IPv6) consumes exactly the 16
address bytes — whatever their values — then sends the failure reply
`\x05\x01\x00` and closes; `create_stream` is never called and the relay
never starts.  (`sent = [5,0,5,1,0]` is the greeting reply followed by the
failure reply; `remaining = rest` shows exactly 16 address bytes were
consumed.) -/
theorem ipv6_request_fails_after_sixteen_bytes (circuit : String → Nat → Socks5.StreamRes)
    (n : Nat) (meths addr rest : List Nat) (hm : meths.length = n) (ha : addr.length = 16) :
    Socks5.run circuit (5 :: n :: (meths ++ ([5, 1, 0, 4] ++ (addr ++ rest)))) =
      ⟨[5, 0, 5, 1, 0], rest, true, true, none, false, false⟩ := by
  rw [Socks5.run_after_greeting circuit n meths _ hm]
  have hpa : Socks5.parseAddr 4 (addr ++ rest) = (.failReply, rest) := by
    unfold Socks5.parseAddr
    rw [if_neg (by norm_num), if_neg (by norm_num), if_pos rfl]
    exact Socks5.ipv6Consume_consumes 8 addr rest (by omega)
  show Socks5.prependSent [5, 0]
      (Socks5.runRequest circuit (5 :: 1 :: 0 :: 4 :: (addr ++ rest))) = _
  unfold Socks5.runRequest
  dsimp only
  rw [if_neg (by simp), hpa]
  rfl

/-- C6 witness: 16 concrete address bytes. -/
theorem ipv6_request_fails_after_sixteen_bytes_witness :
    Socks5.run Socks5.circuitOk (5 :: 0 :: ([] ++ ([5, 1, 0, 4] ++
        ([1, 2, 3, 4, 5, 6, 7, 8, 9, 10, 11, 12, 13, 14, 15, 16] ++ [9, 9])))) =
      ⟨[5, 0, 5, 1, 0], [9, 9], true, true, none, false, false⟩ :=
  ipv6_request_fails_after_sixteen_bytes Socks5.circuitOk 0 []
    [1, 2, 3, 4, 5, 6, 7, 8, 9, 10, 11, 12, 13, 14, 15, 16] [9, 9] rfl rfl

/-- C7: for address-type 3 with declared length byte L, the parser consumes
exactly L bytes as the hostname regardless of their values (the remaining
input is untouched), and for every printable-ASCII domain (as a character
list) of at most 255 bytes, encoding it as a length-prefixed byte list and
running the parser yields the original string as the destination host. -/
theorem domain_parse_exact_and_ascii_roundtrip :
    (∀ (host rest : List Nat), host.length ≤ 255 →
      (Socks5.parseAddr 3 (host.length :: (host ++ rest))).2 = rest) ∧
    (∀ (cs : List Char) (rest : List Nat),
      (∀ c ∈ cs, 0x20 ≤ c.toNat ∧ c.toNat ≤ 0x7E) → cs.length ≤ 255 →
      Socks5.parseAddr 3 (cs.length :: (cs.map Char.toNat ++ rest)) =
        (.okDest (String.mk cs), rest)) := by
  constructor
  · intro host rest _
    unfold Socks5.parseAddr
    rw [if_neg (by norm_num), if_pos rfl]
    dsimp only
    rw [Socks5.recvExact_of_length_eq rest rfl]
    dsimp only
    rcases hdec : Socks5.utf8Decode host with _ | s
    all_goals rfl
  · intro cs rest hascii _
    have hbytes : ∀ b ∈ cs.map Char.toNat, b < 0x80 := by
      intro b hb
      simp only [List.mem_map] at hb
      obtain ⟨c, hc, rfl⟩ := hb
      have := (hascii c hc).2
      omega
    have hmapinv : (cs.map Char.toNat).map Char.ofNat = cs := by
      rw [List.map_map]
      simp [Function.comp_def, Char.ofNat_toNat]
    have hdec : Socks5.utf8Decode (cs.map Char.toNat) = some (String.mk cs) := by
      rw [Socks5.utf8Decode_ascii _ hbytes, hmapinv]
    unfold Socks5.parseAddr
    rw [if_neg (by norm_num), if_pos rfl]
    dsimp only
    rw [Socks5.recvExact_of_length_eq rest (by simp)]
    dsimp only
    rw [hdec]

/-- C7 witness: hostname "hi" with a control byte test on part 1. -/
theorem domain_parse_exact_and_ascii_roundtrip_witness :
    (Socks5.parseAddr 3 (([7, 0, 200] : List Nat).length :: ([7, 0, 200] ++ [0, 80]))).2
        = [0, 80] ∧
    Socks5.parseAddr 3 ((['h', 'i'].length : Nat) :: (['h', 'i'].map Char.toNat ++ [0, 80])) =
      (.okDest (String.mk ['h', 'i']), [0, 80]) :=
  ⟨domain_parse_exact_and_ascii_roundtrip.1 [7, 0, 200] [0, 80] (by decide),
   domain_parse_exact_and_ascii_roundtrip.2 ['h', 'i'] [0, 80] (by decide) (by decide)⟩

/-- C8: for every valid greeting declaring `n` methods, the handshake reads
exactly the `n` method bytes — the outcome is identical for any two method
lists of the declared length, whatever their content — and the greeting
reply `\x05\x00` is sent unconditionally (it is the first thing ever sent). -/
theorem greeting_reads_declared_methods_and_replies (circuit : String → Nat → Socks5.StreamRes)
    (n : Nat) (meths meths' rest : List Nat) (h : meths.length = n) (h' : meths'.length = n) :
    Socks5.run circuit (5 :: n :: (meths ++ rest)) =
      Socks5.run circuit (5 :: n :: (meths' ++ rest)) ∧
    (Socks5.run circuit (5 :: n :: (meths ++ rest))).sent.take 2 = [5, 0] := by
  constructor
  · rw [Socks5.run_after_greeting circuit n meths rest h,
        Socks5.run_after_greeting circuit n meths' rest h']
  · rw [Socks5.run_after_greeting circuit n meths rest h]
    rfl

/-- C8 witness: two different 2-method lists give identical outcomes. -/
theorem greeting_reads_declared_methods_and_replies_witness :
    (Socks5.run Socks5.circuitOk (5 :: 2 :: ([7, 8] ++ [])) =
      Socks5.run Socks5.circuitOk (5 :: 2 :: ([200, 201] ++ []))) ∧
    (Socks5.run Socks5.circuitOk (5 :: 2 :: ([7, 8] ++ []))).sent.take 2 = [5, 0] :=
  greeting_reads_declared_methods_and_replies Socks5.circuitOk 2 [7, 8] [200, 201] [] rfl rfl

/-- C9: for address-type 1, the parsed destination host is the
dotted-decimal rendering of the 4 raw address bytes — with boundary checks
`0.0.0.0` and `255.255.255.255` — and the 2 following bytes are read as a
big-endian unsigned port; both are passed to `create_stream`. -/
theorem ipv4_request_parses_dotted_decimal_and_port (circuit : String → Nat → Socks5.StreamRes)
    (n : Nat) (meths : List Nat) (b0 b1 b2 b3 p1 p2 : Nat) (rest : List Nat)
    (hm : meths.length = n) (hp1 : p1 < 256) (hp2 : p2 < 256) :
    (Socks5.run circuit (5 :: n :: (meths ++
        ([5, 1, 0, 1] ++ ([b0, b1, b2, b3] ++ (p1 :: p2 :: rest)))))).streamRequested =
      some (Socks5.ipv4Dotted [b0, b1, b2, b3], p1 * 256 + p2) ∧
    Socks5.ipv4Dotted [b0, b1, b2, b3] =
      String.intercalate "." [toString b0, toString b1, toString b2, toString b3] ∧
    Socks5.ipv4Dotted [0, 0, 0, 0] = "0.0.0.0" ∧
    Socks5.ipv4Dotted [255, 255, 255, 255] = "255.255.255.255" := by
  refine ⟨?_, rfl, by decide, by decide⟩
  rw [Socks5.run_after_greeting circuit n meths _ hm]
  have hpa : Socks5.parseAddr 1 ([b0, b1, b2, b3] ++ (p1 :: p2 :: rest)) =
      (.okDest (Socks5.ipv4Dotted [b0, b1, b2, b3]), p1 :: p2 :: rest) := by
    unfold Socks5.parseAddr
    rw [if_pos rfl, @Socks5.recvExact_of_length_eq 4 [b0, b1, b2, b3] (p1 :: p2 :: rest) rfl]
  show (Socks5.prependSent [5, 0] (Socks5.runRequest circuit
      (5 :: 1 :: 0 :: 1 :: ([b0, b1, b2, b3] ++ (p1 :: p2 :: rest))))).streamRequested = _
  unfold Socks5.runRequest
  dsimp only
  rw [if_neg (by simp), hpa]
  dsimp only
  cases circuit (Socks5.ipv4Dotted [b0, b1, b2, b3]) (p1 * 256 + p2) <;> rfl

/-- C9 witness: boundary address bytes 255.255.255.255 and port 80. -/
theorem ipv4_request_parses_dotted_decimal_and_port_witness :
    (Socks5.run Socks5.circuitOk (5 :: 1 :: ([7] ++
        ([5, 1, 0, 1] ++ ([255, 255, 255, 255] ++ (0 :: 80 :: [])))))).streamRequested =
      some (Socks5.ipv4Dotted [255, 255, 255, 255], 0 * 256 + 80) ∧
    Socks5.ipv4Dotted [255, 255, 255, 255] =
      String.intercalate "." [toString 255, toString 255, toString 255, toString 255] ∧
    Socks5.ipv4Dotted [0, 0, 0, 0] = "0.0.0.0" ∧
    Socks5.ipv4Dotted [255, 255, 255, 255] = "255.255.255.255" :=
  ipv4_request_parses_dotted_decimal_and_port Socks5.circuitOk 1 [7] 255 255 255 255 0 80 []
    rfl (by decide) (by decide)
